import Mathlib

/-!
Verification of the EID_SPECIAL greeting-card generator.

This file gives a shallow embedding in Lean 4 of the Python functions of the
repository that the checked claims concern, and proves or refutes each claim
against those definitions.

Conventions of the embedding:
  * External HTTP calls are modelled by oracle arguments.  A photo-search
    request is a function from the query string (or from the attempt number,
    when successive attempts of the same query matter) to
    `Except Unit PexelsResponse`, where `.error` models a raised exception
    (`requests` transport error or bad HTTP status from `raise_for_status`).
  * The text-generation call is an oracle `Except Unit String`: `.ok s` is a
    successful completion with body `s`, `.error` a raised exception.  The
    prompt built by the Python code is pure string formatting with no effect
    on control flow, so it is absorbed into the oracle.
  * Randomness (`random.choice`, `random.sample`) is modelled by a seed
    argument driving a deterministic selection; every property proved holds
    for every seed.
  * Python dictionaries with string keys are association lists; `dict.get`
    with a default is `dictGet`.
  * Observable side effects that claims mention (log lines, UI warnings,
    `time.sleep` calls, number of HTTP attempts) are returned explicitly
    alongside the result.
-/

namespace EidSpecial

/-! ### Pexels data model (shared by both resolver variants)

A photo record of the JSON answer exposes `width`, `height` and the
`src.large2x` URL variant, which is all the code reads. -/

structure Photo where
  width : Nat
  height : Nat
  large2x : String
deriving DecidableEq, Repr

structure PexelsResponse where
  total_results : Nat
  photos : List Photo
deriving DecidableEq, Repr

/-- Model of `random.choice` on a photo list, driven by a seed: picks the
element at index `seed mod length` (any index is reachable by some seed).
On the empty list it returns the default junk photo; every call site guards
against the empty list, as the Python code does. -/
def pyChoice (seed : Nat) (l : List Photo) : Photo :=
  l.getD (seed % l.length) ⟨0, 0, ""⟩

/-! ### `src/utils/image_utils.py` — the Background Resolver -/

namespace ImageUtils

/-- The `SEARCH_TERMS` dictionary of `image_utils.py`. -/
def SEARCH_TERMS (category : String) : Option (List String) :=
  if category = "Eid Moon & Stars" then
    some ["crescent moon night", "eid moon", "ramadan moon stars", "night sky mosque"]
  else if category = "Mosque Architecture" then
    some ["grand mosque", "islamic architecture", "beautiful mosque", "mosque interior"]
  else if category = "Islamic Patterns" then
    some ["islamic pattern", "arabic pattern", "islamic geometric", "islamic art"]
  else if category = "Eid Celebration" then
    some ["eid celebration", "eid decoration", "eid festival", "eid lights"]
  else if category = "Lanterns & Lights" then
    some ["ramadan lanterns", "islamic lanterns", "moroccan lamps", "oriental lights"]
  else if category = "Calligraphy Art" then
    some ["islamic calligraphy", "arabic calligraphy", "islamic art", "arabic script art"]
  else if category = "Geometric Patterns" then
    some ["geometric pattern", "moroccan pattern", "islamic geometry", "arabesque pattern"]
  else if category = "Nature & Flowers" then
    some ["islamic garden", "arabic floral", "islamic floral", "moroccan garden"]
  else none

/-- `SEARCH_TERMS.get(category, SEARCH_TERMS["Islamic Patterns"])`. -/
def searchTermsFor (category : String) : List String :=
  (SEARCH_TERMS category).getD
    ["islamic pattern", "arabic pattern", "islamic geometric", "islamic art"]

/-- The quality filter of the primary loop:
`p["width"] >= 1200 and p["height"] >= 800`. -/
def isQuality (p : Photo) : Bool :=
  1200 ≤ p.width && 800 ≤ p.height

/-- The primary search loop (lines 49-81 of `image_utils.py`): for each search
term in order, issue the request; on `total_results > 0` and a non-empty photo
list, filter to quality photos and, if any remain, return the `large2x` URL of
a randomly chosen one; otherwise move to the next term. A raised transport
exception aborts the loop (it is caught by the top-level handler). -/
def primaryLoop (api : String → Except Unit PexelsResponse) (seed : Nat) :
    List String → Except Unit (Option String)
  | [] => .ok none
  | t :: ts =>
    match api t with
    | .error e => .error e
    | .ok data =>
      if 0 < data.total_results then
        match data.photos with
        | [] => primaryLoop api seed ts
        | p :: ps =>
          match (p :: ps).filter isQuality with
          | [] => primaryLoop api seed ts
          | q :: qs => .ok (some (pyChoice seed (q :: qs)).large2x)
      else primaryLoop api seed ts

/-- The inner term loop of the fallback phase (lines 86-100): same requests,
but any photo of a response with `total_results > 0` is accepted — no
dimension filter. -/
def fallbackTermsLoop (api : String → Except Unit PexelsResponse) (seed : Nat) :
    List String → Except Unit (Option String)
  | [] => .ok none
  | t :: ts =>
    match api t with
    | .error e => .error e
    | .ok data =>
      if 0 < data.total_results then
        match data.photos with
        | [] => fallbackTermsLoop api seed ts
        | p :: ps => .ok (some (pyChoice seed (p :: ps)).large2x)
      else fallbackTermsLoop api seed ts

/-- The outer fallback loop over the fixed fallback category list
(line 85: `for category in fallback_categories`).  The Python code indexes
`SEARCH_TERMS[category]` directly; every category of the fixed list is a key
of the dictionary, so `getD []` coincides with direct indexing there. -/
def fallbackLoop (api : String → Except Unit PexelsResponse) (seed : Nat) :
    List String → Except Unit (Option String)
  | [] => .ok none
  | c :: cs =>
    match fallbackTermsLoop api seed ((SEARCH_TERMS c).getD []) with
    | .error e => .error e
    | .ok (some url) => .ok (some url)
    | .ok none => fallbackLoop api seed cs

/-- The fixed fallback category list of line 84. -/
def fallback_categories : List String :=
  ["Islamic Patterns", "Geometric Patterns", "Nature & Flowers"]

/-- The body of the `try:` block of `get_pexels_image` after the key check:
primary loop, then the fallback loop, then `None`. -/
def get_pexels_image_body (api : String → Except Unit PexelsResponse)
    (seed : Nat) (category : String) : Except Unit (Option String) :=
  match primaryLoop api seed (searchTermsFor category) with
  | .error e => .error e
  | .ok (some url) => .ok (some url)
  | .ok none => fallbackLoop api seed fallback_categories

/-- The observable log lines of `get_pexels_image`. -/
inductive LogEvent where
  | errorMissingKey
  | warnNoResults
  | errorException
deriving DecidableEq, Repr

/-- `get_pexels_image` of `image_utils.py`.  `hasKey` is whether
`os.getenv("PEXELS_API_KEY")` yields a truthy value.  The whole body sits in
one `try:`; a missing key logs an error and returns `None` before any request
is issued, exhausted searches log a warning and return `None`, and any raised
exception is caught by the `except:` clause, logged, and converted to `None`.
The returned pair is (result, log lines emitted). -/
def get_pexels_image (hasKey : Bool) (api : String → Except Unit PexelsResponse)
    (seed : Nat) (category : String) : Option String × List LogEvent :=
  if !hasKey then (none, [.errorMissingKey])
  else
    match get_pexels_image_body api seed category with
    | .ok (some url) => (some url, [])
    | .ok none => (none, [.warnNoResults])
    | .error _ => (none, [.errorException])

/-- Whether a search term is usable for the primary loop: the request
succeeds, reports results, has photos, and at least one passes the quality
filter. -/
def primaryUsable (api : String → Except Unit PexelsResponse) (t : String) : Bool :=
  match api t with
  | .ok data => 0 < data.total_results && !data.photos.isEmpty
      && !(data.photos.filter isQuality).isEmpty
  | .error _ => false

/-- Whether a search term is usable for the fallback loop: the request
succeeds, reports results, and has photos (no dimension filter). -/
def fallbackUsable (api : String → Except Unit PexelsResponse) (t : String) : Bool :=
  match api t with
  | .ok data => 0 < data.total_results && !data.photos.isEmpty
  | .error _ => false

end ImageUtils

/-! ### `src/agents.py` — the Message Composer -/

namespace Agents

/-- The `DEFAULT_MESSAGE` constant of `agents.py`, byte for byte (leading
newline, trailing space after the third line, trailing newline). -/
def DEFAULT_MESSAGE : String :=
  "\nMay this Eid bring you joy, peace, and prosperity! 🌙✨\nWishing you and your family a blessed celebration filled with love, laughter, and cherished moments together.\nMay Allah accept our prayers and grant us His infinite mercy. \nعید مبارک\n"

/-- The `EMOJI_SETS` dictionary of `agents.py`; `none` models absence of the
key (`tone in EMOJI_SETS` being false). -/
def EMOJI_SETS (tone : String) : Option (List String) :=
  if tone = "funny" then
    some ["😄", "🎉", "🎊", "🥳", "😊", "😃", "🤗", "🌟", "✨", "💫"]
  else if tone = "emotional" then
    some ["❤️", "🤗", "💝", "💖", "🌟", "💕", "💗", "✨", "💫", "💓"]
  else if tone = "religious" then
    some ["🕌", "☪️", "🌙", "✨", "🤲", "📿", "🌟", "💫", "🌺", "🌸"]
  else if tone = "formal" then
    some ["🌺", "🎀", "✨", "💫", "🌸", "🌹", "🌷", "🎗️", "🌟", "💐"]
  else none

/-- Model of `random.sample(population, k)`: a seed-driven selection of `k`
elements at pairwise distinct positions (pick the element at index
`seed mod length`, remove it, recurse).  Any combination is reachable by some
seed; every property proved below holds for every seed. -/
def pySample : Nat → Nat → List String → List String
  | _, 0, _ => []
  | _, _ + 1, [] => []
  | seed, k + 1, p :: ps =>
    let pop := p :: ps
    let i := seed % pop.length
    pop.getD i "" :: pySample (seed / pop.length) k (pop.eraseIdx i)

/-- `EidAgent._get_completion`: on success the completion body is returned
stripped; any raised exception is caught, logged, and replaced by
`DEFAULT_MESSAGE`. -/
def get_completion (completion : Except Unit String) : String :=
  match completion with
  | .ok s => s.trim
  | .error _ => DEFAULT_MESSAGE

/-- `EidAgent.generate_greeting`: obtains the completion, then, if
`emoji_count > 0 and tone in EMOJI_SETS`, samples
`min emoji_count (set length)` glyphs without replacement, joins them with
spaces, and wraps the text as `emoji_str\ntext\nemoji_str`.
`recipient`, `include_hadith`, `include_urdu` and `sender` only enter the
prompt, which the completion oracle absorbs. -/
def generate_greeting (completion : Except Unit String) (seed : Nat)
    (recipient tone : String) (include_hadith include_urdu : Bool)
    (emoji_count : Nat) (sender : String) : String :=
  let response := get_completion completion
  match EMOJI_SETS tone with
  | some set =>
    if 0 < emoji_count then
      let emojis := pySample seed (min emoji_count set.length) set
      let emoji_str := String.intercalate " " emojis
      emoji_str ++ "\n" ++ response ++ "\n" ++ emoji_str
    else response
  | none => response

/-- `EidAgent.suggest_theme`: lowercases the stripped completion and keeps it
only if it is one of the three lowercase theme names, else "classic". -/
def suggest_theme (completion : Except Unit String) : String :=
  let theme := (get_completion completion).trim.toLower
  if theme = "classic" ∨ theme = "modern" ∨ theme = "elegant" then theme
  else "classic"

/-- `generate_eid_message` of `agents.py`.  `api_key` models
`os.getenv("OPENROUTER_API_KEY")`; `not api_key` is true for an absent or
empty variable.  With a key, the call goes through
`MessageCraftAgent.craft_message`, which forwards to `generate_greeting` with
`emoji_count = 2 if include_emojis else 0`. -/
def generate_eid_message (api_key : Option String)
    (completion : Except Unit String) (seed : Nat)
    (recipient : String) (tone : String) (sender : String)
    (include_hadith include_urdu include_emojis : Bool) : String :=
  match api_key with
  | none => DEFAULT_MESSAGE
  | some k =>
    if k = "" then DEFAULT_MESSAGE
    else
      generate_greeting completion seed recipient tone include_hadith
        include_urdu (if include_emojis then 2 else 0) sender

end Agents

/-! ### `src/tools.py` — the Theme Catalog -/

namespace Tools

/-- The "Classic" property bundle of `style_card`. -/
def classicTheme : List (String × String) :=
  [("font_family", "\x27Playfair Display\x27, serif"),
   ("color", "#1a1a1a"),
   ("background", "#ffffff")]

/-- The "Modern" property bundle of `style_card`. -/
def modernTheme : List (String × String) :=
  [("font_family", "\x27Roboto\x27, sans-serif"),
   ("color", "#333333"),
   ("background", "#f5f5f5")]

/-- The "Elegant" property bundle of `style_card`. -/
def elegantTheme : List (String × String) :=
  [("font_family", "\x27Cormorant Garamond\x27, serif"),
   ("color", "#2c3e50"),
   ("background", "#ecf0f1")]

/-- The `themes` dictionary literal inside `style_card`. -/
def themesCatalog : List (String × List (String × String)) :=
  [("Classic", classicTheme), ("Modern", modernTheme), ("Elegant", elegantTheme)]

/-- `style_card` of `tools.py`: `themes.get(theme, themes["Classic"])`. -/
def style_card (theme : String) : List (String × String) :=
  (themesCatalog.lookup theme).getD classicTheme

end Tools

/-! ### `src/utils/pdf_generator.py` — the Document and Preview Renderers -/

namespace PdfGenerator

/-- The character class of the `remove_emojis` regular expression. -/
def isEmojiChar (c : Char) : Bool :=
  let n := c.toNat
  (0x1F600 ≤ n && n ≤ 0x1F64F) ||
  (0x1F300 ≤ n && n ≤ 0x1F5FF) ||
  (0x1F680 ≤ n && n ≤ 0x1F6FF) ||
  (0x1F1E0 ≤ n && n ≤ 0x1F1FF) ||
  (0x2702 ≤ n && n ≤ 0x27B0) ||
  (0x24C2 ≤ n && n ≤ 0x1F251)

/-- `remove_emojis`: the regex substitutes every run of characters of the
class by the empty string, which filters exactly the characters of the
class. -/
def remove_emojis (s : String) : String :=
  ⟨s.data.filter (fun c => !isEmojiChar c)⟩

/-- One hexadecimal digit, as accepted by Python `int(_, 16)`. -/
def hexDigit (c : Char) : Option Nat :=
  if 48 ≤ c.toNat ∧ c.toNat ≤ 57 then some (c.toNat - 48)
  else if 97 ≤ c.toNat ∧ c.toNat ≤ 102 then some (c.toNat - 87)
  else if 65 ≤ c.toNat ∧ c.toNat ≤ 70 then some (c.toNat - 55)
  else none

/-- Python `int(s, 16)` on the slices taken here: a non-empty all-hex string
parses, anything else raises `ValueError` (modelled as `none`).  The sign,
underscore and whitespace forms Python also accepts never arise from the
two-character slices of a color string and are not modelled. -/
def pyIntHex (s : String) : Option Nat :=
  match s.data with
  | [] => none
  | cs => cs.foldlM (fun acc c => (hexDigit c).map (fun d => acc * 16 + d)) 0

/-- Python slice `s[a:b]` for `0 ≤ a ≤ b` (clamping at the string end). -/
def pySlice (s : String) (a b : Nat) : String :=
  ⟨(s.data.drop a).take (b - a)⟩

/-- The color unpacking `int(s[1:3], 16), int(s[3:5], 16), int(s[5:7], 16)`
used by `EidCard.header` and `create_pdf`; `none` models the `ValueError`
raised on a malformed color string. -/
def parseColor (s : String) : Option (Nat × Nat × Nat) := do
  let r ← pyIntHex (pySlice s 1 3)
  let g ← pyIntHex (pySlice s 3 5)
  let b ← pyIntHex (pySlice s 5 7)
  pure (r, g, b)

/-- Python `theme.get(key, default)` on a string-keyed dictionary. -/
def dictGet (d : List (String × String)) (k dflt : String) : String :=
  (d.lookup k).getD dflt

/-- The title color computed by `EidCard.header` (runs inside `add_page`,
before the guarded output step): `theme.get('title_color', '#4a4a4a')`. -/
def headerTitleColor (theme : List (String × String)) : Option (Nat × Nat × Nat) :=
  parseColor (dictGet theme "title_color" "#4a4a4a")

/-- The body text color set by `create_pdf` (also before the guarded output
step): `theme.get('text_color', '#000000')`. -/
def bodyTextColor (theme : List (String × String)) : Option (Nat × Nat × Nat) :=
  parseColor (dictGet theme "text_color" "#000000")

/-- The text content of the full card document handed to `pdf.output`:
header title, salutation, emoji-stripped body (word wrapping reflows the body
over lines without changing its characters), footer credit. -/
def mainDocLines (message recipient : String) : List String :=
  ["Eid Mubarak",
   "Dear " ++ remove_emojis recipient ++ ",",
   remove_emojis message,
   "Created with EidiCard Generator"]

/-- The text content of the minimal fallback document built in the `except`
branch of `create_pdf`. -/
def fallbackDocLines : List String :=
  ["Eid Mubarak",
   "Eid Mubarak",
   "May this Eid bring you joy and happiness.\nBest wishes to you and your family.",
   "Created with EidiCard Generator"]

/-- The Python exceptions `create_pdf` can leak. -/
inductive PdfError where
  | colorError
  | outputError
deriving DecidableEq, Repr

/-- The result of a successful `create_pdf` call, instrumented with whether
the minimal fallback document was the one written. -/
structure PdfResult where
  path : String
  usedFallback : Bool
deriving DecidableEq, Repr

/-- `create_pdf` of `pdf_generator.py`.  `serializeOk` is the oracle deciding
whether `pdf.output` succeeds on a document with the given text content
(failure models an `fpdf` exception, e.g. an unencodable character).
Control flow of the source: `EidCard(theme)` plus `add_page` run the header
(title color parse), then the body text color parse — both outside any `try`,
so a malformed color raises; only the first `pdf.output` is guarded, and on
its failure the minimal document is built and written by a second, unguarded
`pdf.output`. -/
def create_pdf (serializeOk : List String → Bool) (message recipient : String)
    (theme : List (String × String)) (output_path : Option String) :
    Except PdfError PdfResult :=
  match headerTitleColor theme with
  | none => .error .colorError
  | some _ =>
    match bodyTextColor theme with
    | none => .error .colorError
    | some _ =>
      let path := output_path.getD "tmp_card.pdf"
      if serializeOk (mainDocLines message recipient) then .ok ⟨path, false⟩
      else if serializeOk fallbackDocLines then .ok ⟨path, true⟩
      else .error .outputError

/-- The markup template of `create_preview`, parameterised by the
interpolated values, with the literal text of the f-string. -/
def previewTemplate (message_html recipient bg_color text_color title_color :
    String) : String :=
  "\n    <link href=\"https://fonts.googleapis.com/css2?family=Roboto:wght@400;700&display=swap\" rel=\"stylesheet\">\n"
  ++ "    <div style=\"\n        max-width: 600px;\n        margin: 20px auto;\n        padding: 20px;\n        border-radius: 10px;\n"
  ++ "        background-color: " ++ bg_color ++ ";\n"
  ++ "        color: " ++ text_color ++ ";\n"
  ++ "        font-family: \x27Roboto\x27, sans-serif;\n        box-shadow: 0 4px 6px rgba(0, 0, 0, 0.1);\n    \">\n"
  ++ "        <h1 style=\"\n            text-align: center;\n"
  ++ "            color: " ++ title_color ++ ";\n"
  ++ "            font-family: \x27Roboto\x27, sans-serif;\n            font-weight: 700;\n        \">\n            Eid Mubarak\n        </h1>\n"
  ++ "        <h2 style=\"\n            margin-top: 20px;\n            font-family: \x27Roboto\x27, sans-serif;\n            font-weight: 700;\n        \">Dear "
  ++ recipient ++ ",</h2>\n"
  ++ "        <div style=\"\n            white-space: pre-wrap;\n            line-height: 1.6;\n            margin-top: 20px;\n            font-family: \x27Roboto\x27, sans-serif;\n            font-weight: 400;\n        \">\n            "
  ++ message_html ++ "\n        </div>\n    </div>\n    "

/-- `create_preview` of `pdf_generator.py`: converts newlines of the message
to `<br>` and interpolates message, recipient and the three theme colors
(with their fixed defaults) into the markup template.  Pure, total. -/
def create_preview (message recipient : String)
    (theme : List (String × String)) : String :=
  let message_html := message.replace "\n" "<br>"
  previewTemplate message_html recipient
    (dictGet theme "bg_color" "#ffffff")
    (dictGet theme "text_color" "#000000")
    (dictGet theme "title_color" "#4a4a4a")

end PdfGenerator

/-! ### `src/main.py` — `create_pdf_card`, the download-with-retry renderer -/

namespace Main

/-- A background image value: either the image parsed from downloaded bytes
(`Image.open`, identified by an abstract payload) or a solid canvas built by
`Image.new('RGB', (w, h), color)`. -/
inductive BgImage where
  | downloaded (payload : Nat)
  | solid (w h : Nat) (color : Nat × Nat × Nat)
deriving DecidableEq, Repr

/-- Observable outcome of the background-acquisition loop of
`create_pdf_card`: the image bound to `bg_image`, the number of
`session.get` attempts executed, the number of `time.sleep(1)` calls, and
whether the `st.warning` degradation notice was issued. -/
structure BgFetchResult where
  bg : BgImage
  downloads : Nat
  sleeps : Nat
  warned : Bool
deriving DecidableEq, Repr

/-- The `for attempt in range(max_retries)` loop of `create_pdf_card`
(lines 147-181 of `main.py`), with the hardcoded `max_retries = 3` and
`retry_delay = 1` unrolled.  `dl i` is the outcome of attempt `i`
(request, chunked read and `Image.open` together): `some payload` on
success, `none` when a `RequestException` or `IOError` is raised.  On a
non-final failed attempt the code sleeps one second and continues; on the
final failed attempt it binds the solid white 2100x2970 canvas and issues
the warning. -/
def create_pdf_card_fetchBg (dl : Nat → Option Nat) : BgFetchResult :=
  match dl 0 with
  | some d => ⟨.downloaded d, 1, 0, false⟩
  | none =>
    match dl 1 with
    | some d => ⟨.downloaded d, 2, 1, false⟩
    | none =>
      match dl 2 with
      | some d => ⟨.downloaded d, 3, 2, false⟩
      | none => ⟨.solid 2100 2970 (255, 255, 255), 3, 2, true⟩

/-- The message cleanup of `create_pdf_card` (lines 206-211): strip the three
boilerplate phrases, strip blank lines, drop every character the emoji
classifier flags (`emoji.EMOJI_DATA`, an external table modelled by the
oracle `emojiData`). -/
def cleanupMessage (emojiData : Char → Bool) (message : String) : String :=
  let m1 := message.replace "[No Hadith included per your request]" ""
  let m2 := m1.replace "Note: Do not include any signature, HTML tags, or styling code." ""
  let m3 := m2.replace "Note: No signature, HTML tags, or styling code is included in this message." ""
  let m4 := String.intercalate "\n"
    (((m3.splitOn "\n").map String.trim).filter (fun l => l ≠ ""))
  ⟨m4.data.filter (fun c => !emojiData c)⟩

/-- The rendered card produced by `create_pdf_card`: the temporary PDF path
it returns, the cleaned body text laid into the document, and the observable
outcome of the background acquisition. -/
structure CardPdf where
  path : String
  body : String
  fetch : BgFetchResult
deriving DecidableEq, Repr

/-- `create_pdf_card` of `main.py`: acquire the background with the retry
loop, compose the overlay, lay out title, cleaned message, bilingual heading
and signature, and write a temporary PDF whose path is returned.  After the
loop the code proceeds unconditionally; the degraded solid background takes
the same rendering path as a downloaded one. -/
def create_pdf_card (dl : Nat → Option Nat) (emojiData : Char → Bool)
    (recipient message sender : String) : CardPdf :=
  let fetch := create_pdf_card_fetchBg dl
  let body := cleanupMessage emojiData message
  ⟨"eid_card.pdf", body, fetch⟩

end Main

/-! ### `src/utils/__init__.py` — the `get_pexels_image` the UI imports

The package `__init__` defines its own `get_pexels_image`, which shadows the
one of `image_utils` for every `from utils import get_pexels_image` (as in
`main.py`). -/

namespace UtilsInit

/-- The exceptions this variant can raise to its caller. -/
inductive PyExc where
  | valueError
  | requestException
deriving DecidableEq, Repr

/-- The `for attempt in range(max_retries)` loop of the package-level
`get_pexels_image` (lines 52-69 of `utils/__init__.py`).  `api i` is the
outcome of the request of attempt `i` (`requests.get` plus
`raise_for_status` plus `.json()`), `fuel` the number of loop iterations
remaining (`max_retries - attempt`).  On a successful response: no photos
means `return None`, otherwise return a randomly chosen photo URL — no
dimension filter, no further keywords.  On a `RequestException`: re-raise if
this was the last attempt, else sleep one second and retry.  If the loop
exhausts without returning (only possible with `max_retries = 0`), fall
through to `return None`. -/
def pexelsAttempt (api : Nat → Except Unit PexelsResponse) (seed : Nat)
    (max_retries : Nat) : Nat → Nat → Except PyExc (Option String)
  | 0, _ => .ok none
  | fuel + 1, attempt =>
    match api attempt with
    | .ok data =>
      match data.photos with
      | [] => .ok none
      | p :: ps => .ok (some (pyChoice seed (p :: ps)).large2x)
    | .error _ =>
      if attempt = max_retries - 1 then .error .requestException
      else pexelsAttempt api seed max_retries fuel (attempt + 1)

/-- The package-level `get_pexels_image` (`utils/__init__.py`): a missing
credential (no argument and no truthy `PEXELS_API_KEY`) raises `ValueError`;
otherwise the retry loop runs with the default `max_retries = 3`. -/
def get_pexels_image (hasKey : Bool) (api : Nat → Except Unit PexelsResponse)
    (seed : Nat) (query : String) : Except PyExc (Option String) :=
  if !hasKey then .error .valueError
  else pexelsAttempt api seed 3 3 0

end UtilsInit

/-! ### Conclusion predicates of the larger claims

These bundle the conjunction a claim asserts, so that its theorem and witness
can state it once. -/

/-- What claim C1 asserts of the background acquisition of
`create_pdf_card`, for a download oracle `dl` (and a second oracle used to
state that no attempt beyond the third is ever consulted). -/
def C1Conclusion (dl dl2 : Nat → Option Nat) (emojiData : Char → Bool)
    (recipient message sender : String) : Prop :=
  ((∀ i, i < 3 → dl i = dl2 i) →
    Main.create_pdf_card dl emojiData recipient message sender =
      Main.create_pdf_card dl2 emojiData recipient message sender) ∧
  (Main.create_pdf_card_fetchBg dl).downloads ≤ 3 ∧
  (Main.create_pdf_card_fetchBg dl).sleeps + 1 =
    (Main.create_pdf_card_fetchBg dl).downloads ∧
  ((Main.create_pdf_card_fetchBg dl).warned = true ↔
    (dl 0 = none ∧ dl 1 = none ∧ dl 2 = none)) ∧
  ((Main.create_pdf_card_fetchBg dl).warned = true →
    (Main.create_pdf_card_fetchBg dl).bg = .solid 2100 2970 (255, 255, 255) ∧
    (Main.create_pdf_card_fetchBg dl).downloads = 3) ∧
  ((Main.create_pdf_card_fetchBg dl).warned = false →
    ∃ i d, i < 3 ∧ dl i = some d ∧
      (Main.create_pdf_card_fetchBg dl).bg = .downloaded d) ∧
  (Main.create_pdf_card dl emojiData recipient message sender).path
    = "eid_card.pdf" ∧
  (Main.create_pdf_card dl emojiData recipient message sender).fetch
    = Main.create_pdf_card_fetchBg dl

/-- What claim C2 asserts of the Background Resolver
(`image_utils.get_pexels_image`), for an exception-free search oracle. -/
def C2Conclusion (api : String → Except Unit PexelsResponse) (seed : Nat)
    (category : String) : Prop :=
  (∀ t0, (ImageUtils.searchTermsFor category).find? (ImageUtils.primaryUsable api)
      = some t0 →
    ∃ resp, api t0 = .ok resp ∧
      ∃ p ∈ resp.photos, ImageUtils.isQuality p = true ∧
        (ImageUtils.get_pexels_image true api seed category).fst
          = some p.large2x) ∧
  ((∀ t ∈ ImageUtils.searchTermsFor category,
      ImageUtils.primaryUsable api t = false) →
    ∀ c0, ImageUtils.fallback_categories.find?
        (fun c => ((ImageUtils.SEARCH_TERMS c).getD []).any
          (ImageUtils.fallbackUsable api)) = some c0 →
      ∀ t1, ((ImageUtils.SEARCH_TERMS c0).getD []).find?
          (ImageUtils.fallbackUsable api) = some t1 →
        ∃ resp, api t1 = .ok resp ∧
          ∃ p ∈ resp.photos,
            (ImageUtils.get_pexels_image true api seed category).fst
              = some p.large2x) ∧
  ((ImageUtils.get_pexels_image true api seed category).fst = none ↔
    ((∀ t ∈ ImageUtils.searchTermsFor category,
        ImageUtils.primaryUsable api t = false) ∧
     ∀ c ∈ ImageUtils.fallback_categories,
       ∀ t ∈ (ImageUtils.SEARCH_TERMS c).getD [],
         ImageUtils.fallbackUsable api t = false))

/-- What claim C10 asserts of the package-level `get_pexels_image`. -/
def C10Conclusion (api : Nat → Except Unit PexelsResponse) (seed : Nat)
    (query : String) : Prop :=
  UtilsInit.get_pexels_image false api seed query = .error .valueError ∧
  (((api 0).toOption = none ∧ (api 1).toOption = none ∧
      (api 2).toOption = none) →
    UtilsInit.get_pexels_image true api seed query = .error .requestException) ∧
  (∀ i, i < 3 → (∀ j, j < i → (api j).toOption = none) →
    ∀ data, api i = .ok data →
      (data.photos = [] →
        UtilsInit.get_pexels_image true api seed query = .ok none) ∧
      (data.photos ≠ [] → ∃ p ∈ data.photos,
        UtilsInit.get_pexels_image true api seed query = .ok (some p.large2x))) ∧
  (UtilsInit.get_pexels_image true api seed query = .ok none ↔
    ∃ i, i < 3 ∧ (∀ j, j < i → (api j).toOption = none) ∧
      ∃ data, api i = .ok data ∧ data.photos = [])

/-! ## Helper lemmas -/

theorem pyChoice_mem (seed : Nat) (l : List Photo) (h : l ≠ []) :
    pyChoice seed l ∈ l := by
  have hlen : 0 < l.length := List.length_pos.mpr h
  have hlt : seed % l.length < l.length := Nat.mod_lt _ hlen
  unfold pyChoice
  rw [List.getD_eq_getElem l _ hlt]
  exact List.getElem_mem hlt

theorem pySample_length (seed k : Nat) (pop : List String)
    (h : k ≤ pop.length) : (Agents.pySample seed k pop).length = k := by
  induction k generalizing seed pop with
  | zero => simp [Agents.pySample]
  | succ k ih =>
    match pop with
    | [] => simp at h
    | p :: ps =>
      have hlt : seed % (p :: ps).length < (p :: ps).length :=
        Nat.mod_lt _ (by simp)
      have hk : k ≤ ((p :: ps).eraseIdx (seed % (p :: ps).length)).length := by
        rw [List.length_eraseIdx_of_lt hlt]
        simp only [List.length_cons] at h ⊢
        omega
      show (((p :: ps).getD (seed % (p :: ps).length) "") ::
        Agents.pySample (seed / (p :: ps).length) k
          ((p :: ps).eraseIdx (seed % (p :: ps).length))).length = k + 1
      rw [List.length_cons, ih _ _ hk]

theorem pySample_subset (seed k : Nat) (pop : List String) :
    ∀ x ∈ Agents.pySample seed k pop, x ∈ pop := by
  induction k generalizing seed pop with
  | zero => simp [Agents.pySample]
  | succ k ih =>
    match pop with
    | [] => simp [Agents.pySample]
    | p :: ps =>
      intro x hx
      simp only [Agents.pySample, List.mem_cons] at hx
      rcases hx with hx | hx
      · subst hx
        have hlt : seed % (p :: ps).length < (p :: ps).length :=
          Nat.mod_lt _ (by simp)
        rw [List.getD_eq_getElem _ _ hlt]
        exact List.getElem_mem hlt
      · exact (List.eraseIdx_subset _ _) (ih _ _ x hx)

theorem getD_not_mem_eraseIdx (l : List String) (i : Nat) (hi : i < l.length)
    (hnd : l.Nodup) : l.getD i "" ∉ l.eraseIdx i := by
  rw [List.getD_eq_getElem _ _ hi]
  intro hmem
  rw [List.mem_eraseIdx_iff_getElem] at hmem
  obtain ⟨j, hj, hne, heq⟩ := hmem
  exact hne ((hnd.getElem_inj_iff).mp heq)

theorem pySample_nodup (seed k : Nat) (pop : List String) (hnd : pop.Nodup) :
    (Agents.pySample seed k pop).Nodup := by
  induction k generalizing seed pop with
  | zero => simp [Agents.pySample]
  | succ k ih =>
    match pop with
    | [] => simp [Agents.pySample]
    | p :: ps =>
      have hlt : seed % (p :: ps).length < (p :: ps).length :=
        Nat.mod_lt _ (by simp)
      simp only [Agents.pySample, List.nodup_cons]
      refine ⟨fun hmem => ?_, ih _ _ (hnd.eraseIdx _)⟩
      have := pySample_subset (seed / (p :: ps).length) k _ _ hmem
      exact getD_not_mem_eraseIdx (p :: ps) _ hlt hnd this

theorem EMOJI_SETS_nodup (tone : String) (set : List String)
    (h : Agents.EMOJI_SETS tone = some set) : set.Nodup := by
  unfold Agents.EMOJI_SETS at h
  split_ifs at h <;> simp only [Option.some.injEq] at h <;> subst h <;> decide

/-! ## Claim C3 — missing text-generation credential yields the fixed default -/

/-- C3: with no `OPENROUTER_API_KEY` configured, `generate_eid_message`
returns exactly `DEFAULT_MESSAGE`, unmodified, whatever the recipient, tone,
sender, completion outcome, randomness and flags are. -/
theorem c3_no_credential_returns_default :
    ∀ (completion : Except Unit String) (seed : Nat)
      (recipient tone sender : String)
      (include_hadith include_urdu include_emojis : Bool),
    Agents.generate_eid_message none completion seed recipient tone sender
      include_hadith include_urdu include_emojis = Agents.DEFAULT_MESSAGE :=
  fun _ _ _ _ _ _ _ _ => rfl

/-! ## Claim C4 — remote failure is caught, but the caller does not always
receive `DEFAULT_MESSAGE` verbatim

When the completion call raises, `_get_completion` catches the exception and
substitutes `DEFAULT_MESSAGE`; no exception reaches the caller.  But
`generate_greeting` then applies the emoji post-processing to that
substituted text, so with `include_emojis = True` (the default) and a tone
that has a glyph set, the caller of the composer receives `DEFAULT_MESSAGE`
wrapped in glyph lines, not `DEFAULT_MESSAGE` itself. -/

/-- C4 counterexample: with a key configured, a failing remote call, the
default flags (`include_emojis = True`) and tone "formal", the composer's
value is not `DEFAULT_MESSAGE`. -/
theorem c4_counterexample :
    Agents.generate_eid_message (some "k") (.error ()) 0 "Ali" "formal" ""
      false false true ≠ Agents.DEFAULT_MESSAGE := by
  decide

/-- C4 amended: when the remote call raises, no exception propagates and the
value returned to the caller of the composer is `DEFAULT_MESSAGE`, except
that when glyph post-processing is active (emoji flag set and the tone has a
glyph set) it is `DEFAULT_MESSAGE` wrapped in one glyph line on each side. -/
theorem c4_failure_value_amended :
    ∀ (k : String), k ≠ "" →
    ∀ (seed : Nat) (recipient tone sender : String)
      (include_hadith include_urdu include_emojis : Bool),
    Agents.generate_eid_message (some k) (.error ()) seed recipient tone
        sender include_hadith include_urdu include_emojis =
      (match Agents.EMOJI_SETS tone with
       | some set =>
         if include_emojis then
           String.intercalate " " (Agents.pySample seed (min 2 set.length) set)
             ++ "\n" ++ Agents.DEFAULT_MESSAGE ++ "\n" ++
             String.intercalate " " (Agents.pySample seed (min 2 set.length) set)
         else Agents.DEFAULT_MESSAGE
       | none => Agents.DEFAULT_MESSAGE) := by
  intro k hk seed recipient tone sender include_hadith include_urdu include_emojis
  simp only [Agents.generate_eid_message, if_neg hk]
  cases hset : Agents.EMOJI_SETS tone <;>
    cases include_emojis <;>
      simp [Agents.generate_greeting, Agents.get_completion, hset]

/-- C4 witness: the amended statement applied at a concrete input. -/
theorem c4_failure_value_witness :
    ("k" ≠ "") ∧
    Agents.generate_eid_message (some "k") (.error ()) 0 "Ali" "formal" ""
        false false true =
      (match Agents.EMOJI_SETS "formal" with
       | some set =>
         if true then
           String.intercalate " " (Agents.pySample 0 (min 2 set.length) set)
             ++ "\n" ++ Agents.DEFAULT_MESSAGE ++ "\n" ++
             String.intercalate " " (Agents.pySample 0 (min 2 set.length) set)
         else Agents.DEFAULT_MESSAGE
       | none => Agents.DEFAULT_MESSAGE) :=
  ⟨by decide,
   c4_failure_value_amended "k" (by decide) 0 "Ali" "formal" "" false false true⟩

/-! ## Claim C5 — glyph post-processing of `generate_greeting` -/

/-- C5: for every tone with a glyph set and every requested count `n > 0`,
`generate_greeting` prepends and appends one line of exactly
`min n (set size)` glyphs, drawn from the tone's set without duplicates; for
`n = 0` or a tone without a glyph set, the generated text is returned
unchanged. -/
theorem c5_glyph_postprocessing :
    (∀ (tone : String) (set : List String),
      Agents.EMOJI_SETS tone = some set →
      ∀ (n : Nat), 0 < n →
      ∀ (completion : Except Unit String) (seed : Nat) (recipient : String)
        (include_hadith include_urdu : Bool) (sender : String),
      ∃ es : List String,
        es.length = min n set.length ∧ es.Nodup ∧ (∀ e ∈ es, e ∈ set) ∧
        Agents.generate_greeting completion seed recipient tone include_hadith
            include_urdu n sender =
          String.intercalate " " es ++ "\n" ++ Agents.get_completion completion
            ++ "\n" ++ String.intercalate " " es) ∧
    (∀ (tone : String) (n : Nat) (completion : Except Unit String)
        (seed : Nat) (recipient : String) (include_hadith include_urdu : Bool)
        (sender : String),
      (n = 0 ∨ Agents.EMOJI_SETS tone = none) →
      Agents.generate_greeting completion seed recipient tone include_hadith
          include_urdu n sender = Agents.get_completion completion) := by
  constructor
  · intro tone set hset n hn completion seed recipient include_hadith include_urdu sender
    refine ⟨Agents.pySample seed (min n set.length) set,
      pySample_length _ _ _ (Nat.min_le_right _ _),
      pySample_nodup _ _ _ (EMOJI_SETS_nodup tone set hset),
      pySample_subset _ _ _, ?_⟩
    simp [Agents.generate_greeting, hset, hn]
  · intro tone n completion seed recipient include_hadith include_urdu sender h
    rcases h with h | h
    · subst h
      cases hset : Agents.EMOJI_SETS tone <;>
        simp [Agents.generate_greeting, hset]
    · simp [Agents.generate_greeting, h]

/-- C5 witness: tone "funny" with `n = 2` at concrete inputs. -/
theorem c5_glyph_witness :
    (Agents.EMOJI_SETS "funny"
      = some ["😄", "🎉", "🎊", "🥳", "😊", "😃", "🤗", "🌟", "✨", "💫"]) ∧
    0 < 2 ∧
    ∃ es : List String,
      es.length = min 2
        (["😄", "🎉", "🎊", "🥳", "😊", "😃", "🤗", "🌟", "✨", "💫"] :
          List String).length ∧
      es.Nodup ∧
      (∀ e ∈ es,
        e ∈ (["😄", "🎉", "🎊", "🥳", "😊", "😃", "🤗", "🌟", "✨", "💫"] :
          List String)) ∧
      Agents.generate_greeting (.ok "Eid Mubarak") 7 "Ali" "funny" false false
          2 "Sara" =
        String.intercalate " " es ++ "\n"
          ++ Agents.get_completion (.ok "Eid Mubarak") ++ "\n"
          ++ String.intercalate " " es :=
  ⟨rfl, by decide,
   c5_glyph_postprocessing.1 "funny" _ rfl 2 (by decide) (.ok "Eid Mubarak")
     7 "Ali" false false "Sara"⟩

/-! ## Theme catalog helper lemmas -/

theorem style_card_default (t : String) (h1 : t ≠ "Classic")
    (h2 : t ≠ "Modern") (h3 : t ≠ "Elegant") :
    Tools.style_card t = Tools.classicTheme := by
  have e1 : (t == "Classic") = false := beq_eq_false_iff_ne.mpr h1
  have e2 : (t == "Modern") = false := beq_eq_false_iff_ne.mpr h2
  have e3 : (t == "Elegant") = false := beq_eq_false_iff_ne.mpr h3
  simp [Tools.style_card, Tools.themesCatalog, List.lookup, e1, e2, e3]

theorem style_card_cases (t : String) :
    Tools.style_card t = Tools.classicTheme ∨
    Tools.style_card t = Tools.modernTheme ∨
    Tools.style_card t = Tools.elegantTheme := by
  by_cases h1 : t = "Classic"
  · subst h1; left; rfl
  by_cases h2 : t = "Modern"
  · subst h2; right; left; rfl
  by_cases h3 : t = "Elegant"
  · subst h3; right; right; rfl
  exact Or.inl (style_card_default t h1 h2 h3)

/-! ## Claim C6 — `create_pdf` does not never-throw for every theme

The claim quantifies over every theme dictionary.  The two color parses
(`int(theme.get('title_color', ...)[1:3], 16)` in the header run by
`add_page`, and `int(theme.get('text_color', ...)[1:3], 16)` at the top of
`create_pdf`) happen before the guarded `pdf.output`, so a theme with a
malformed color string raises a `ValueError` that no handler catches, and
the fallback path's own `pdf.output` is likewise unguarded.  For themes
whose color entries parse — all Theme Catalog themes among them — the
claimed fallback behavior does hold. -/

/-- C6 counterexample: a theme whose `text_color` is not a hex color makes
`create_pdf` raise before any serialization is attempted, even though the
serializer would accept everything. -/
theorem c6_counterexample :
    PdfGenerator.create_pdf (fun _ => true) "Eid greetings" "Ali"
      [("text_color", "zz0000")] none = .error .colorError := rfl

/-- C6 amended: for every serializer oracle, message, recipient and output
path, and every theme whose `title_color` and `text_color` entries (or their
defaults) parse as colors, `create_pdf` returns the output path without
raising, provided serializing the fixed fallback content succeeds; the
minimal fallback document is written exactly when serializing the full
document fails. -/
theorem c6_create_pdf_amended :
    ∀ (serializeOk : List String → Bool) (message recipient : String)
      (theme : List (String × String)) (output_path : Option String),
    (PdfGenerator.headerTitleColor theme).isSome →
    (PdfGenerator.bodyTextColor theme).isSome →
    serializeOk PdfGenerator.fallbackDocLines = true →
    PdfGenerator.create_pdf serializeOk message recipient theme output_path =
      .ok ⟨output_path.getD "tmp_card.pdf",
           !serializeOk (PdfGenerator.mainDocLines message recipient)⟩ := by
  intro serializeOk message recipient theme output_path htitle htext hfb
  obtain ⟨ct, hct⟩ := Option.isSome_iff_exists.mp htitle
  obtain ⟨cx, hcx⟩ := Option.isSome_iff_exists.mp htext
  simp only [PdfGenerator.create_pdf, hct, hcx]
  cases hmain : serializeOk (PdfGenerator.mainDocLines message recipient) <;>
    simp [hmain, hfb]

/-- C6 witness: the amended statement for a Theme Catalog theme and a
serializer that accepts everything. -/
theorem c6_create_pdf_witness :
    (PdfGenerator.headerTitleColor (Tools.style_card "Classic")).isSome ∧
    (PdfGenerator.bodyTextColor (Tools.style_card "Classic")).isSome ∧
    ((fun _ => true) : List String → Bool) PdfGenerator.fallbackDocLines
      = true ∧
    PdfGenerator.create_pdf (fun _ => true) "Eid greetings" "Ali"
        (Tools.style_card "Classic") none =
      .ok ⟨(none : Option String).getD "tmp_card.pdf",
           !((fun _ => true) : List String → Bool)
             (PdfGenerator.mainDocLines "Eid greetings" "Ali")⟩ :=
  ⟨by decide, by decide, rfl,
   c6_create_pdf_amended (fun _ => true) "Eid greetings" "Ali"
     (Tools.style_card "Classic") none (by decide) (by decide) rfl⟩

/-! ## Claim C8 — the Theme Catalog bundles and its default -/

/-- C8: `style_card` returns the recorded bundle for each recognized name and
the "Classic" bundle for every other name, including the lowercase names the
theme-suggestion agent produces. -/
theorem c8_style_card_catalog :
    Tools.style_card "Classic" = Tools.classicTheme ∧
    Tools.style_card "Modern" = Tools.modernTheme ∧
    Tools.style_card "Elegant" = Tools.elegantTheme ∧
    (∀ t, t ≠ "Classic" → t ≠ "Modern" → t ≠ "Elegant" →
      Tools.style_card t = Tools.classicTheme) ∧
    (∀ completion, Tools.style_card (Agents.suggest_theme completion)
      = Tools.classicTheme) := by
  refine ⟨rfl, rfl, rfl, style_card_default, ?_⟩
  intro completion
  simp only [Agents.suggest_theme]
  split_ifs with h
  · rcases h with h | h | h <;> rw [h] <;> exact style_card_default _
      (by decide) (by decide) (by decide)
  · exact style_card_default _ (by decide) (by decide) (by decide)

/-- C8 witness: the default branch applied at the lowercase name
"classic". -/
theorem c8_style_card_witness :
    ("classic" ≠ "Classic") ∧ ("classic" ≠ "Modern") ∧
    ("classic" ≠ "Elegant") ∧
    Tools.style_card "classic" = Tools.classicTheme :=
  ⟨by decide, by decide, by decide,
   c8_style_card_catalog.2.2.2.1 "classic" (by decide) (by decide) (by decide)⟩

/-! ## Claim C9 — `style_card` bundles never carry the keys the renderers
read, so the renderers always use their hardcoded defaults -/

/-- C9: every `style_card` bundle has exactly the keys `font_family`,
`color`, `background`; the keys the renderers read are absent, so
`create_preview` always embeds the default colors `#ffffff`, `#000000`,
`#4a4a4a`, and the PDF renderer's title and body colors parse to their
defaults `(74, 74, 74)` and `(0, 0, 0)`. -/
theorem c9_theme_keys_mismatch :
    ∀ (t message recipient : String),
    (Tools.style_card t).map Prod.fst = ["font_family", "color", "background"] ∧
    (Tools.style_card t).lookup "text_color" = none ∧
    (Tools.style_card t).lookup "bg_color" = none ∧
    (Tools.style_card t).lookup "title_color" = none ∧
    PdfGenerator.create_preview message recipient (Tools.style_card t) =
      PdfGenerator.previewTemplate (message.replace "\n" "<br>") recipient
        "#ffffff" "#000000" "#4a4a4a" ∧
    PdfGenerator.headerTitleColor (Tools.style_card t) = some (74, 74, 74) ∧
    PdfGenerator.bodyTextColor (Tools.style_card t) = some (0, 0, 0) := by
  intro t message recipient
  rcases style_card_cases t with h | h | h <;> rw [h] <;>
    exact ⟨by decide, by decide, by decide, by decide, rfl, by decide, by decide⟩

/-! ## Claim C1 — background download retry of `create_pdf_card` -/

/-- C1: the background download is attempted at most 3 times (the result
never consults a later attempt), one 1-second sleep separates consecutive
attempts, the degradation warning fires exactly when all 3 attempts fail —
in which case the background is the solid white 2100x2970 RGB canvas after
exactly 3 attempts — otherwise the background is the first successfully
downloaded image; rendering proceeds to a PDF in every case. -/
theorem c1_background_retry :
    ∀ (dl dl2 : Nat → Option Nat) (emojiData : Char → Bool)
      (recipient message sender : String),
    C1Conclusion dl dl2 emojiData recipient message sender := by
  intro dl dl2 emojiData recipient message sender
  have hindep : (∀ i, i < 3 → dl i = dl2 i) →
      Main.create_pdf_card dl emojiData recipient message sender =
        Main.create_pdf_card dl2 emojiData recipient message sender := by
    intro hag
    have e0 := hag 0 (by omega)
    have e1 := hag 1 (by omega)
    have e2 := hag 2 (by omega)
    simp only [Main.create_pdf_card, Main.create_pdf_card_fetchBg, e0, e1, e2]
  refine ⟨hindep, ?_⟩
  rcases h0 : dl 0 with _ | d0
  · rcases h1 : dl 1 with _ | d1
    · rcases h2 : dl 2 with _ | d2
      · have hfetch : Main.create_pdf_card_fetchBg dl
            = ⟨.solid 2100 2970 (255, 255, 255), 3, 2, true⟩ := by
          simp [Main.create_pdf_card_fetchBg, h0, h1, h2]
        exact ⟨by simp [hfetch], by simp [hfetch],
          by simp [hfetch, h0, h1, h2],
          fun _ => ⟨by simp [hfetch], by simp [hfetch]⟩,
          by simp [hfetch], rfl, rfl⟩
      · have hfetch : Main.create_pdf_card_fetchBg dl
            = ⟨.downloaded d2, 3, 2, false⟩ := by
          simp [Main.create_pdf_card_fetchBg, h0, h1, h2]
        exact ⟨by simp [hfetch], by simp [hfetch],
          by simp [hfetch, h0, h1, h2], by simp [hfetch],
          fun _ => ⟨2, d2, by omega, h2, by simp [hfetch]⟩, rfl, rfl⟩
    · have hfetch : Main.create_pdf_card_fetchBg dl
          = ⟨.downloaded d1, 2, 1, false⟩ := by
        simp [Main.create_pdf_card_fetchBg, h0, h1]
      exact ⟨by simp [hfetch], by simp [hfetch], by simp [hfetch, h0, h1],
        by simp [hfetch],
        fun _ => ⟨1, d1, by omega, h1, by simp [hfetch]⟩, rfl, rfl⟩
  · have hfetch : Main.create_pdf_card_fetchBg dl
        = ⟨.downloaded d0, 1, 0, false⟩ := by
      simp [Main.create_pdf_card_fetchBg, h0]
    exact ⟨by simp [hfetch], by simp [hfetch], by simp [hfetch, h0],
      by simp [hfetch],
      fun _ => ⟨0, d0, by omega, h0, by simp [hfetch]⟩, rfl, rfl⟩

/-- C1 witness: two oracles that agree on the first three attempts but differ
on a fourth produce the same card. -/
theorem c1_background_witness :
    Main.create_pdf_card (fun i => if i = 1 then some 5 else none)
        (fun _ => false) "Ali" "Eid Mubarak" "Sara" =
      Main.create_pdf_card
        (fun i => if i < 3 then (if i = 1 then some 5 else none) else some 9)
        (fun _ => false) "Ali" "Eid Mubarak" "Sara" :=
  (c1_background_retry (fun i => if i = 1 then some 5 else none)
    (fun i => if i < 3 then (if i = 1 then some 5 else none) else some 9)
    (fun _ => false) "Ali" "Eid Mubarak" "Sara").1
    (fun i hi => by simp [hi])

/-! ## Claim C7 — failure modes of the Background Resolver -/

/-- C7: a missing photo-search credential is an immediate failure —
the result is `None` with an error log line, independent of every request
outcome — reported differently from the no-results warning; and a raised
transport exception is caught, logged, and converted into the `None` failure
indicator instead of propagating. -/
theorem c7_resolver_failure_modes :
    ∀ (api api2 : String → Except Unit PexelsResponse) (seed seed2 : Nat)
      (category category2 : String),
    ImageUtils.get_pexels_image false api seed category
      = (none, [.errorMissingKey]) ∧
    (ImageUtils.get_pexels_image false api seed category =
      ImageUtils.get_pexels_image false api2 seed2 category2) ∧
    ([ImageUtils.LogEvent.errorMissingKey]
      ≠ [ImageUtils.LogEvent.warnNoResults]) ∧
    (ImageUtils.get_pexels_image_body api seed category = .ok none →
      ImageUtils.get_pexels_image true api seed category
        = (none, [.warnNoResults])) ∧
    (∀ e, ImageUtils.get_pexels_image_body api seed category = .error e →
      ImageUtils.get_pexels_image true api seed category
        = (none, [.errorException])) := by
  intro api api2 seed seed2 category category2
  refine ⟨rfl, rfl, by decide, ?_, ?_⟩
  · intro h
    simp [ImageUtils.get_pexels_image, h]
  · intro e h
    simp [ImageUtils.get_pexels_image, h]

/-- C7 witness: an oracle whose first request raises is caught and turned
into `None` with the exception log line. -/
theorem c7_resolver_witness :
    (ImageUtils.get_pexels_image_body
        (fun _ => (Except.error () : Except Unit PexelsResponse)) 0
        "Mosque Architecture" = .error ()) ∧
    ImageUtils.get_pexels_image true
        (fun _ => (Except.error () : Except Unit PexelsResponse)) 0
        "Mosque Architecture" = (none, [.errorException]) :=
  ⟨rfl,
   (c7_resolver_failure_modes
      (fun _ => (Except.error () : Except Unit PexelsResponse))
      (fun _ => (Except.error () : Except Unit PexelsResponse)) 0 0
      "Mosque Architecture" "Mosque Architecture").2.2.2.2 () rfl⟩

/-! ## Claim C10 — the package-level `get_pexels_image` the UI imports -/

theorem pexelsAttempt_succ (api : Nat → Except Unit PexelsResponse)
    (seed max_retries fuel attempt : Nat) :
    UtilsInit.pexelsAttempt api seed max_retries (fuel + 1) attempt =
      (match api attempt with
       | .ok data =>
         match data.photos with
         | [] => .ok none
         | p :: ps => .ok (some (pyChoice seed (p :: ps)).large2x)
       | .error _ =>
         if attempt = max_retries - 1 then .error .requestException
         else UtilsInit.pexelsAttempt api seed max_retries fuel (attempt + 1)) :=
  rfl

theorem except_error_of_toOption_none {e : Except Unit PexelsResponse}
    (h : e.toOption = none) : e = .error () := by
  cases e with
  | error u => cases u; rfl
  | ok v => simp [Except.toOption] at h

/-- C10: the package-level resolver raises `ValueError` on a missing
credential, re-raises the transport exception when all 3 attempts fail,
serves the first successful response with no dimension filter and no keyword
fallback, and returns `None` exactly when the first successful response has
no photos. -/
theorem c10_package_resolver :
    ∀ (api : Nat → Except Unit PexelsResponse) (seed : Nat) (query : String),
    C10Conclusion api seed query := by
  intro api seed query
  refine ⟨rfl, ?_, ?_, ?_⟩
  · rintro ⟨h0, h1, h2⟩
    have e0 := except_error_of_toOption_none h0
    have e1 := except_error_of_toOption_none h1
    have e2 := except_error_of_toOption_none h2
    simp [UtilsInit.get_pexels_image, pexelsAttempt_succ, e0, e1, e2]
  · intro i hi hprev data hdata
    interval_cases i
    · constructor
      · intro hp
        simp [UtilsInit.get_pexels_image, pexelsAttempt_succ, hdata, hp]
      · intro hp
        rcases hph : data.photos with _ | ⟨p, ps⟩
        · exact absurd hph hp
        · exact ⟨pyChoice seed (p :: ps), hph ▸ pyChoice_mem seed _ hp,
            by simp [UtilsInit.get_pexels_image, pexelsAttempt_succ, hdata, hph]⟩
    · have e0 := except_error_of_toOption_none (hprev 0 (by omega))
      constructor
      · intro hp
        simp [UtilsInit.get_pexels_image, pexelsAttempt_succ, e0, hdata, hp]
      · intro hp
        rcases hph : data.photos with _ | ⟨p, ps⟩
        · exact absurd hph hp
        · exact ⟨pyChoice seed (p :: ps), hph ▸ pyChoice_mem seed _ hp,
            by simp [UtilsInit.get_pexels_image, pexelsAttempt_succ, e0, hdata,
              hph]⟩
    · have e0 := except_error_of_toOption_none (hprev 0 (by omega))
      have e1 := except_error_of_toOption_none (hprev 1 (by omega))
      constructor
      · intro hp
        simp [UtilsInit.get_pexels_image, pexelsAttempt_succ, e0, e1, hdata, hp]
      · intro hp
        rcases hph : data.photos with _ | ⟨p, ps⟩
        · exact absurd hph hp
        · exact ⟨pyChoice seed (p :: ps), hph ▸ pyChoice_mem seed _ hp,
            by simp [UtilsInit.get_pexels_image, pexelsAttempt_succ, e0, e1,
              hdata, hph]⟩
  · constructor
    · intro hres
      rcases ha0 : api 0 with u0 | d0
      · rcases ha1 : api 1 with u1 | d1
        · rcases ha2 : api 2 with u2 | d2
          · cases u0; cases u1; cases u2
            simp [UtilsInit.get_pexels_image, pexelsAttempt_succ, ha0, ha1,
              ha2] at hres
          · cases u0; cases u1
            rcases hph : d2.photos with _ | ⟨p, ps⟩
            · exact ⟨2, by omega,
                fun j hj => by interval_cases j <;>
                  simp [ha0, ha1, Except.toOption],
                d2, ha2, hph⟩
            · simp [UtilsInit.get_pexels_image, pexelsAttempt_succ, ha0, ha1,
                ha2, hph] at hres
        · cases u0
          rcases hph : d1.photos with _ | ⟨p, ps⟩
          · exact ⟨1, by omega,
              fun j hj => by interval_cases j <;> simp [ha0, Except.toOption],
              d1, ha1, hph⟩
          · simp [UtilsInit.get_pexels_image, pexelsAttempt_succ, ha0, ha1,
              hph] at hres
      · rcases hph : d0.photos with _ | ⟨p, ps⟩
        · exact ⟨0, by omega, fun j hj => by omega, d0, ha0, hph⟩
        · simp [UtilsInit.get_pexels_image, pexelsAttempt_succ, ha0, hph]
            at hres
    · rintro ⟨i, hi, hprev, data, hdata, hempty⟩
      interval_cases i
      · simp [UtilsInit.get_pexels_image, pexelsAttempt_succ, hdata, hempty]
      · have e0 := except_error_of_toOption_none (hprev 0 (by omega))
        simp [UtilsInit.get_pexels_image, pexelsAttempt_succ, e0, hdata,
          hempty]
      · have e0 := except_error_of_toOption_none (hprev 0 (by omega))
        have e1 := except_error_of_toOption_none (hprev 1 (by omega))
        simp [UtilsInit.get_pexels_image, pexelsAttempt_succ, e0, e1, hdata,
          hempty]

/-- C10 witness: three failing attempts re-raise the transport exception. -/
theorem c10_package_witness :
    ((((fun _ => (Except.error () : Except Unit PexelsResponse)) :
        Nat → Except Unit PexelsResponse) 0).toOption = none ∧
     (((fun _ => (Except.error () : Except Unit PexelsResponse)) :
        Nat → Except Unit PexelsResponse) 1).toOption = none ∧
     (((fun _ => (Except.error () : Except Unit PexelsResponse)) :
        Nat → Except Unit PexelsResponse) 2).toOption = none) ∧
    UtilsInit.get_pexels_image true
        (fun _ => (Except.error () : Except Unit PexelsResponse)) 0 "mosque"
      = .error .requestException :=
  ⟨⟨rfl, rfl, rfl⟩,
   (c10_package_resolver (fun _ => (Except.error () : Except Unit PexelsResponse))
      0 "mosque").2.1 ⟨rfl, rfl, rfl⟩⟩

/-! ## Claim C2 — search order, dimension filter and fallback of the
Background Resolver -/

theorem exceptOk_of_isSome {e : Except Unit PexelsResponse}
    (h : e.toOption.isSome) : ∃ r, e = .ok r := by
  cases e with
  | error u => simp [Except.toOption] at h
  | ok v => exact ⟨v, rfl⟩

theorem primaryLoop_cons_notusable (api : String → Except Unit PexelsResponse)
    (seed : Nat) (t : String) (ts : List String) (resp : PexelsResponse)
    (ha : api t = .ok resp) (hu : ImageUtils.primaryUsable api t = false) :
    ImageUtils.primaryLoop api seed (t :: ts)
      = ImageUtils.primaryLoop api seed ts := by
  unfold ImageUtils.primaryUsable at hu
  rw [ha] at hu
  by_cases htr : 0 < resp.total_results
  · rcases hph : resp.photos with _ | ⟨p, ps⟩
    · simp only [ImageUtils.primaryLoop, ha, if_pos htr, hph]
    · rcases hfil : (p :: ps).filter ImageUtils.isQuality with _ | ⟨q, qs⟩
      · simp only [ImageUtils.primaryLoop, ha, if_pos htr, hph, hfil]
      · exfalso
        simp [htr, hph, hfil] at hu
  · simp only [ImageUtils.primaryLoop, ha, if_neg htr]

theorem primaryLoop_cons_usable (api : String → Except Unit PexelsResponse)
    (seed : Nat) (t : String) (ts : List String)
    (hu : ImageUtils.primaryUsable api t = true) :
    ∃ resp, api t = .ok resp ∧
      resp.photos.filter ImageUtils.isQuality ≠ [] ∧
      ImageUtils.primaryLoop api seed (t :: ts) = .ok (some
        (pyChoice seed (resp.photos.filter ImageUtils.isQuality)).large2x) := by
  unfold ImageUtils.primaryUsable at hu
  rcases ha : api t with u | resp
  · rw [ha] at hu; simp at hu
  · rw [ha] at hu
    simp only [Bool.and_eq_true, decide_eq_true_eq,
      Bool.not_eq_true', List.isEmpty_eq_false] at hu
    obtain ⟨⟨htr, hne⟩, hfne⟩ := hu
    refine ⟨resp, rfl, hfne, ?_⟩
    rcases hph : resp.photos with _ | ⟨p, ps⟩
    · exact absurd hph hne
    · rw [hph] at hfne
      rcases hfil : (p :: ps).filter ImageUtils.isQuality with _ | ⟨q, qs⟩
      · exact absurd hfil hfne
      · simp only [ImageUtils.primaryLoop, ha, if_pos htr, hph, hfil]

theorem primaryLoop_none (api : String → Except Unit PexelsResponse)
    (seed : Nat) (hok : ∀ t, (api t).toOption.isSome) :
    ∀ ts, (∀ t ∈ ts, ImageUtils.primaryUsable api t = false) →
      ImageUtils.primaryLoop api seed ts = .ok none := by
  intro ts
  induction ts with
  | nil => intro _; rfl
  | cons t ts ih =>
    intro h
    obtain ⟨resp, ha⟩ := exceptOk_of_isSome (hok t)
    rw [primaryLoop_cons_notusable api seed t ts resp ha (h t (by simp))]
    exact ih (fun x hx => h x (by simp [hx]))

theorem primaryLoop_find (api : String → Except Unit PexelsResponse)
    (seed : Nat) (hok : ∀ t, (api t).toOption.isSome) :
    ∀ (ts : List String) (t0 : String),
      ts.find? (ImageUtils.primaryUsable api) = some t0 →
      ∃ resp, api t0 = .ok resp ∧
        resp.photos.filter ImageUtils.isQuality ≠ [] ∧
        ImageUtils.primaryLoop api seed ts = .ok (some
          (pyChoice seed (resp.photos.filter ImageUtils.isQuality)).large2x) := by
  intro ts
  induction ts with
  | nil => intro t0 h; simp at h
  | cons t ts ih =>
    intro t0 hf
    cases hu : ImageUtils.primaryUsable api t with
    | true =>
      rw [List.find?_cons_of_pos _ hu] at hf
      obtain rfl : t = t0 := by injection hf
      exact primaryLoop_cons_usable api seed t ts hu
    | false =>
      rw [List.find?_cons_of_neg _ (by simp [hu])] at hf
      obtain ⟨resp, ha⟩ := exceptOk_of_isSome (hok t)
      rw [primaryLoop_cons_notusable api seed t ts resp ha hu]
      exact ih t0 hf

theorem fallbackTermsLoop_cons_notusable
    (api : String → Except Unit PexelsResponse) (seed : Nat) (t : String)
    (ts : List String) (resp : PexelsResponse) (ha : api t = .ok resp)
    (hu : ImageUtils.fallbackUsable api t = false) :
    ImageUtils.fallbackTermsLoop api seed (t :: ts)
      = ImageUtils.fallbackTermsLoop api seed ts := by
  unfold ImageUtils.fallbackUsable at hu
  rw [ha] at hu
  by_cases htr : 0 < resp.total_results
  · rcases hph : resp.photos with _ | ⟨p, ps⟩
    · simp only [ImageUtils.fallbackTermsLoop, ha, if_pos htr, hph]
    · exfalso
      simp [htr, hph] at hu
  · simp only [ImageUtils.fallbackTermsLoop, ha, if_neg htr]

theorem fallbackTermsLoop_cons_usable
    (api : String → Except Unit PexelsResponse) (seed : Nat) (t : String)
    (ts : List String) (hu : ImageUtils.fallbackUsable api t = true) :
    ∃ resp, api t = .ok resp ∧ resp.photos ≠ [] ∧
      ImageUtils.fallbackTermsLoop api seed (t :: ts)
        = .ok (some (pyChoice seed resp.photos).large2x) := by
  unfold ImageUtils.fallbackUsable at hu
  rcases ha : api t with u | resp
  · rw [ha] at hu; simp at hu
  · rw [ha] at hu
    simp only [Bool.and_eq_true, decide_eq_true_eq,
      Bool.not_eq_true', List.isEmpty_eq_false] at hu
    obtain ⟨htr, hne⟩ := hu
    refine ⟨resp, rfl, hne, ?_⟩
    rcases hph : resp.photos with _ | ⟨p, ps⟩
    · exact absurd hph hne
    · simp only [ImageUtils.fallbackTermsLoop, ha, if_pos htr, hph]

theorem fallbackTermsLoop_none (api : String → Except Unit PexelsResponse)
    (seed : Nat) (hok : ∀ t, (api t).toOption.isSome) :
    ∀ ts, (∀ t ∈ ts, ImageUtils.fallbackUsable api t = false) →
      ImageUtils.fallbackTermsLoop api seed ts = .ok none := by
  intro ts
  induction ts with
  | nil => intro _; rfl
  | cons t ts ih =>
    intro h
    obtain ⟨resp, ha⟩ := exceptOk_of_isSome (hok t)
    rw [fallbackTermsLoop_cons_notusable api seed t ts resp ha (h t (by simp))]
    exact ih (fun x hx => h x (by simp [hx]))

theorem fallbackTermsLoop_find (api : String → Except Unit PexelsResponse)
    (seed : Nat) (hok : ∀ t, (api t).toOption.isSome) :
    ∀ (ts : List String) (t1 : String),
      ts.find? (ImageUtils.fallbackUsable api) = some t1 →
      ∃ resp, api t1 = .ok resp ∧ resp.photos ≠ [] ∧
        ImageUtils.fallbackTermsLoop api seed ts
          = .ok (some (pyChoice seed resp.photos).large2x) := by
  intro ts
  induction ts with
  | nil => intro t1 h; simp at h
  | cons t ts ih =>
    intro t1 hf
    cases hu : ImageUtils.fallbackUsable api t with
    | true =>
      rw [List.find?_cons_of_pos _ hu] at hf
      obtain rfl : t = t1 := by injection hf
      exact fallbackTermsLoop_cons_usable api seed t ts hu
    | false =>
      rw [List.find?_cons_of_neg _ (by simp [hu])] at hf
      obtain ⟨resp, ha⟩ := exceptOk_of_isSome (hok t)
      rw [fallbackTermsLoop_cons_notusable api seed t ts resp ha hu]
      exact ih t1 hf

theorem fallbackLoop_none (api : String → Except Unit PexelsResponse)
    (seed : Nat) (hok : ∀ t, (api t).toOption.isSome) :
    ∀ cs, (∀ c ∈ cs, ∀ t ∈ (ImageUtils.SEARCH_TERMS c).getD [],
        ImageUtils.fallbackUsable api t = false) →
      ImageUtils.fallbackLoop api seed cs = .ok none := by
  intro cs
  induction cs with
  | nil => intro _; rfl
  | cons c cs ih =>
    intro h
    have hin := fallbackTermsLoop_none api seed hok _ (h c (by simp))
    simp only [ImageUtils.fallbackLoop, hin]
    exact ih (fun x hx t ht => h x (by simp [hx]) t ht)

theorem fallbackLoop_find (api : String → Except Unit PexelsResponse)
    (seed : Nat) (hok : ∀ t, (api t).toOption.isSome) :
    ∀ (cs : List String) (c0 : String),
      cs.find? (fun c => ((ImageUtils.SEARCH_TERMS c).getD []).any
        (ImageUtils.fallbackUsable api)) = some c0 →
      ∀ t1, ((ImageUtils.SEARCH_TERMS c0).getD []).find?
          (ImageUtils.fallbackUsable api) = some t1 →
        ∃ resp, api t1 = .ok resp ∧ resp.photos ≠ [] ∧
          ImageUtils.fallbackLoop api seed cs
            = .ok (some (pyChoice seed resp.photos).large2x) := by
  intro cs
  induction cs with
  | nil => intro c0 h; simp at h
  | cons c cs ih =>
    intro c0 hcf t1 htf
    cases hany : ((ImageUtils.SEARCH_TERMS c).getD []).any
        (ImageUtils.fallbackUsable api) with
    | true =>
      simp only [List.find?, hany] at hcf
      obtain rfl : c = c0 := by injection hcf
      obtain ⟨resp, ha, hne, hval⟩ :=
        fallbackTermsLoop_find api seed hok _ t1 htf
      refine ⟨resp, ha, hne, ?_⟩
      simp only [ImageUtils.fallbackLoop, hval]
    | false =>
      simp only [List.find?, hany] at hcf
      have hnone := fallbackTermsLoop_none api seed hok _
        (fun t ht => by
          have := List.any_eq_false.mp hany t ht
          simpa using this)
      simp only [ImageUtils.fallbackLoop, hnone]
      exact ih c0 hcf t1 htf

/-- C2: with a configured credential and an exception-free search service,
the Background Resolver returns a quality-filtered photo URL of the first
usable primary keyword when one exists; only falls back to the fixed
category list — without the dimension filter — when no primary keyword is
usable; and returns `None` exactly when no primary keyword and no fallback
keyword yields a usable photo. -/
theorem c2_background_resolver :
    ∀ (api : String → Except Unit PexelsResponse) (seed : Nat)
      (category : String),
    (∀ t, (api t).toOption.isSome) → C2Conclusion api seed category := by
  intro api seed category hok
  have primary_some : ∀ t0,
      (ImageUtils.searchTermsFor category).find? (ImageUtils.primaryUsable api)
        = some t0 →
      ∃ resp, api t0 = .ok resp ∧
        ∃ p ∈ resp.photos, ImageUtils.isQuality p = true ∧
          (ImageUtils.get_pexels_image true api seed category).fst
            = some p.large2x := by
    intro t0 hfind
    obtain ⟨resp, ha, hfne, hval⟩ := primaryLoop_find api seed hok _ t0 hfind
    have hmem := pyChoice_mem seed _ hfne
    exact ⟨resp, ha,
      pyChoice seed (resp.photos.filter ImageUtils.isQuality),
      (List.mem_filter.mp hmem).1, (List.mem_filter.mp hmem).2,
      by simp [ImageUtils.get_pexels_image, ImageUtils.get_pexels_image_body,
        hval]⟩
  refine ⟨primary_some, ?_, ?_⟩
  · intro hall c0 hcfind t1 htfind
    have hploop := primaryLoop_none api seed hok _ hall
    obtain ⟨resp, ha, hne, hval⟩ :=
      fallbackLoop_find api seed hok _ c0 hcfind t1 htfind
    exact ⟨resp, ha, pyChoice seed resp.photos, pyChoice_mem _ _ hne,
      by simp [ImageUtils.get_pexels_image, ImageUtils.get_pexels_image_body,
        hploop, hval]⟩
  · constructor
    · intro hres
      have hallp : ∀ t ∈ ImageUtils.searchTermsFor category,
          ImageUtils.primaryUsable api t = false := by
        intro t ht
        by_contra hcon
        have hsome : ((ImageUtils.searchTermsFor category).find?
            (ImageUtils.primaryUsable api)).isSome :=
          List.find?_isSome.mpr ⟨t, ht, by simpa using hcon⟩
        obtain ⟨t0, hf⟩ := Option.isSome_iff_exists.mp hsome
        obtain ⟨resp, ha, hmemp⟩ := primary_some t0 hf
        obtain ⟨p, hp, hq, hval⟩ := hmemp
        rw [hval] at hres
        cases hres
      refine ⟨hallp, ?_⟩
      intro c hc t ht
      by_contra hcon
      have hanysome : (ImageUtils.fallback_categories.find?
          (fun c => ((ImageUtils.SEARCH_TERMS c).getD []).any
            (ImageUtils.fallbackUsable api))).isSome :=
        List.find?_isSome.mpr ⟨c, hc, by
          simp only [List.any_eq_true]
          exact ⟨t, ht, by simpa using hcon⟩⟩
      obtain ⟨c0, hcf⟩ := Option.isSome_iff_exists.mp hanysome
      have hc0any := List.find?_some hcf
      have htsome : (((ImageUtils.SEARCH_TERMS c0).getD []).find?
          (ImageUtils.fallbackUsable api)).isSome := by
        rw [List.find?_isSome]
        simpa [List.any_eq_true] using hc0any
      obtain ⟨t1, htf⟩ := Option.isSome_iff_exists.mp htsome
      have hploop := primaryLoop_none api seed hok _ hallp
      obtain ⟨resp, ha, hne, hval⟩ :=
        fallbackLoop_find api seed hok _ c0 hcf t1 htf
      rw [show (ImageUtils.get_pexels_image true api seed category).fst
          = some (pyChoice seed resp.photos).large2x from by
        simp [ImageUtils.get_pexels_image, ImageUtils.get_pexels_image_body,
          hploop, hval]] at hres
      cases hres
    · rintro ⟨hallp, hallf⟩
      have h1 := primaryLoop_none api seed hok _ hallp
      have h2 := fallbackLoop_none api seed hok _ hallf
      simp [ImageUtils.get_pexels_image, ImageUtils.get_pexels_image_body,
        h1, h2]

/-- C2 witness: a service answering every query with one large photo serves
the first primary keyword with the quality filter satisfied. -/
theorem c2_background_witness :
    (∀ t, (((fun _ => (Except.ok ⟨1, [⟨1600, 900, "url-a"⟩]⟩ :
        Except Unit PexelsResponse)) : String → Except Unit PexelsResponse)
          t).toOption.isSome) ∧
    C2Conclusion
      (fun _ => (Except.ok ⟨1, [⟨1600, 900, "url-a"⟩]⟩ :
        Except Unit PexelsResponse)) 0 "Mosque Architecture" :=
  ⟨fun t => rfl,
   c2_background_resolver
     (fun _ => (Except.ok ⟨1, [⟨1600, 900, "url-a"⟩]⟩ :
       Except Unit PexelsResponse)) 0 "Mosque Architecture" (fun t => rfl)⟩

end EidSpecial
